import Mathlib

/-!
# Verification of the tari-dan consensus/wallet spec claims

Shallow embedding of the relevant parts of the repository:

* `src/applications/tari_watcher/src/monitoring.rs` (`monitor_child`)
* `src/dan_layer/consensus/src/hotstuff/common.rs` (dummy-block synthesis)
* `src/dan_layer/consensus/src/hotstuff/on_catch_up_sync_request.rs` (catch-up sync)
* `src/dan_layer/wallet/crypto/src/proof.rs` (confidential output statements)

Pure functions are translated to Lean functions; the async channel sends of the
watcher are modelled as an ordered event list; the sync handler is modelled as a
function from a store snapshot to the ordered list of outbound messages.
External cryptographic library functions (curve arithmetic, AEAD, range proofs,
hashes) are taken as parameters, following the spec's treatment of them as
external collaborators.
-/

namespace Watcher

/-- `ProcessStatus` from `monitoring.rs`.  `Submitted` carries a transaction id
and block number (the `Transaction` struct). -/
inductive ProcessStatus where
  | Running : ProcessStatus
  | Exited (code : Int) : ProcessStatus
  | Crashed : ProcessStatus
  | InternalError (msg : String) : ProcessStatus
  | Submitted (txId blockNum : Nat) : ProcessStatus
deriving DecidableEq

/-- Outcome of `child.wait()`: `success` is `ExitStatus::success()`, `code` is
`ExitStatus::code()` (`None` when the child was killed by a signal). -/
structure ExitStatus where
  success : Bool
  code : Option Int
deriving DecidableEq

/-- One send on one of the three channels given to `monitor_child`. -/
inductive ChannelEvent where
  | logging (s : ProcessStatus) : ChannelEvent
  | alerting (s : ProcessStatus) : ChannelEvent
  | restart : ChannelEvent
deriving DecidableEq

/-- `monitor_child` (monitoring.rs lines 41-99) as the ordered list of channel
sends it performs, as a function of the outcome of `child.wait()`. -/
def monitor_child (exit : Except String ExitStatus) : List ChannelEvent :=
  [ChannelEvent.logging ProcessStatus.Running, ChannelEvent.alerting ProcessStatus.Running] ++
    match exit with
    | Except.ok status =>
      if status.success then
        [ChannelEvent.logging (ProcessStatus.Exited (status.code.getD 0)),
          ChannelEvent.alerting (ProcessStatus.Exited (status.code.getD 0)),
          ChannelEvent.restart]
      else
        [ChannelEvent.logging ProcessStatus.Crashed,
          ChannelEvent.alerting ProcessStatus.Crashed,
          ChannelEvent.restart]
    | Except.error err =>
      [ChannelEvent.logging (ProcessStatus.InternalError err),
        ChannelEvent.alerting (ProcessStatus.InternalError err),
        ChannelEvent.restart]

/-- The final `ProcessStatus` reported by `monitor_child` for a given wait
outcome. -/
def reported_status (exit : Except String ExitStatus) : ProcessStatus :=
  match exit with
  | Except.ok status =>
    if status.success then ProcessStatus.Exited (status.code.getD 0) else ProcessStatus.Crashed
  | Except.error err => ProcessStatus.InternalError err

/-- `true` exactly on the restart-pulse event. -/
def ChannelEvent.isRestart : ChannelEvent → Bool
  | ChannelEvent.restart => true
  | _ => false

/-- C10: for every outcome of the supervised child process, `monitor_child`
sends the same `ProcessStatus` value to both the logging and alerting channels
followed by exactly one restart pulse; `Exited(code)` is emitted only when the
child's exit status is success, a non-success exit status is reported as
`Crashed` (discarding the exit code), and a wait error is reported as
`InternalError` with the error message. -/
theorem monitor_child_reports_same_status_then_one_restart
    (exit : Except String ExitStatus) :
    monitor_child exit =
      [ChannelEvent.logging ProcessStatus.Running, ChannelEvent.alerting ProcessStatus.Running,
        ChannelEvent.logging (reported_status exit), ChannelEvent.alerting (reported_status exit),
        ChannelEvent.restart] ∧
    ((monitor_child exit).filter ChannelEvent.isRestart).length = 1 ∧
    (∀ c : Int, reported_status exit = ProcessStatus.Exited c →
      ∃ st : ExitStatus, exit = Except.ok st ∧ st.success = true) ∧
    (∀ st : ExitStatus, exit = Except.ok st → st.success = false →
      reported_status exit = ProcessStatus.Crashed) ∧
    (∀ e : String, exit = Except.error e →
      reported_status exit = ProcessStatus.InternalError e) := by
  cases exit with
  | error e =>
    exact ⟨rfl, rfl, by simp [reported_status], by simp, by simp [reported_status]⟩
  | ok st =>
    rcases st with ⟨success, code⟩
    cases success
    · exact ⟨rfl, rfl, by simp [reported_status], by simp [reported_status], by simp⟩
    · refine ⟨rfl, rfl, ?_, by simp [reported_status], by simp⟩
      intro c _
      exact ⟨⟨true, code⟩, rfl, rfl⟩

end Watcher

namespace Hotstuff

/-- `QuorumCertificate` essentials (spec §3): `block_id`, `block_height`,
`epoch`, `shard`; the signature quorum is opaque to the synthesizer and is
not modelled. -/
structure QuorumCertificate (BlockId Epoch Shard : Type) where
  block_id : BlockId
  block_height : Nat
  epoch : Epoch
  shard : Shard
deriving DecidableEq

/-- `LeafBlock` (spec §3): `(id, height, epoch)`. -/
structure LeafBlock (BlockId Epoch : Type) where
  block_id : BlockId
  height : Nat
  epoch : Epoch
deriving DecidableEq

/-- The header fields of a `Block` (spec §3); the block `id` is the hash of
these fields. -/
structure BlockHeader (Addr BlockId Network Epoch Shard Hash : Type) where
  parent_id : BlockId
  height : Nat
  epoch : Epoch
  shard : Shard
  network : Network
  justify : QuorumCertificate BlockId Epoch Shard
  proposer : Addr
  state_merkle_root : Hash
  timestamp : Nat
  base_layer_height : Nat
  base_layer_hash : Hash
  is_dummy : Bool
deriving DecidableEq

/-- `Block` (spec §3): an `id` (hash of the header) together with the header
fields. -/
structure Block (Addr BlockId Network Epoch Shard Hash : Type) where
  id : BlockId
  header : BlockHeader Addr BlockId Network Epoch Shard Hash
deriving DecidableEq

section BlockAccessors

variable {Addr BlockId Network Epoch Shard Hash : Type}

def Block.parent (b : Block Addr BlockId Network Epoch Shard Hash) : BlockId := b.header.parent_id

def Block.height (b : Block Addr BlockId Network Epoch Shard Hash) : Nat := b.header.height

def Block.epoch (b : Block Addr BlockId Network Epoch Shard Hash) : Epoch := b.header.epoch

def Block.shard (b : Block Addr BlockId Network Epoch Shard Hash) : Shard := b.header.shard

def Block.network (b : Block Addr BlockId Network Epoch Shard Hash) : Network := b.header.network

def Block.justify (b : Block Addr BlockId Network Epoch Shard Hash) :
    QuorumCertificate BlockId Epoch Shard := b.header.justify

def Block.proposer (b : Block Addr BlockId Network Epoch Shard Hash) : Addr := b.header.proposer

def Block.merkle_root (b : Block Addr BlockId Network Epoch Shard Hash) : Hash :=
  b.header.state_merkle_root

def Block.timestamp (b : Block Addr BlockId Network Epoch Shard Hash) : Nat := b.header.timestamp

def Block.base_layer_block_height (b : Block Addr BlockId Network Epoch Shard Hash) : Nat :=
  b.header.base_layer_height

def Block.base_layer_block_hash (b : Block Addr BlockId Network Epoch Shard Hash) : Hash :=
  b.header.base_layer_hash

def Block.as_leaf_block (b : Block Addr BlockId Network Epoch Shard Hash) :
    LeafBlock BlockId Epoch :=
  { block_id := b.id, height := b.height, epoch := b.epoch }

def QuorumCertificate.as_leaf_block (qc : QuorumCertificate BlockId Epoch Shard) :
    LeafBlock BlockId Epoch :=
  { block_id := qc.block_id, height := qc.block_height, epoch := qc.epoch }

/-- Modelled from the spec: `Block::dummy_block` (tari_dan_storage, not under
src/). Per spec §4.3 and the glossary, a dummy block carries no commands,
reuses the justify-QC, the parent's Merkle root, timestamp and base-layer
pointers, and its `id` is the hash of its header; the header hash is passed in
as the function `hashHeader`. -/
def Block.dummy_block
    (hashHeader : BlockHeader Addr BlockId Network Epoch Shard Hash → BlockId)
    (network : Network) (parent_id : BlockId) (proposer : Addr) (height : Nat)
    (high_qc : QuorumCertificate BlockId Epoch Shard) (epoch : Epoch) (shard : Shard)
    (parent_merkle_root : Hash) (parent_timestamp : Nat)
    (parent_base_layer_block_height : Nat) (parent_base_layer_block_hash : Hash) :
    Block Addr BlockId Network Epoch Shard Hash :=
  let header : BlockHeader Addr BlockId Network Epoch Shard Hash :=
    { parent_id := parent_id
      height := height
      epoch := epoch
      shard := shard
      network := network
      justify := high_qc
      proposer := proposer
      state_merkle_root := parent_merkle_root
      timestamp := parent_timestamp
      base_layer_height := parent_base_layer_block_height
      base_layer_hash := parent_base_layer_block_hash
      is_dummy := true }
  { id := hashHeader header, header := header }

end BlockAccessors

/-- The parameters threaded unchanged through `with_dummy_blocks`
(common.rs lines 101-117): the committee and the leader strategy
(`get_leader_public_key`), the inherited parent fields, and the header-hash
function of the block model. -/
structure DummyParams (Addr BlockId Network Epoch Shard Hash : Type) where
  hashHeader : BlockHeader Addr BlockId Network Epoch Shard Hash → BlockId
  network : Network
  epoch : Epoch
  shard : Shard
  high_qc : QuorumCertificate BlockId Epoch Shard
  parent_merkle_root : Hash
  leader_strategy : List Addr → Nat → Addr
  local_committee : List Addr
  parent_timestamp : Nat
  parent_base_layer_block_height : Nat
  parent_base_layer_block_hash : Hash

section DummyBlocks

variable {Addr BlockId Network Epoch Shard Hash : Type}

/-- The dummy block synthesized at `current_height` on parent `parent_id`
(the loop body of `with_dummy_blocks`, common.rs lines 138-151). -/
def dummyAt (p : DummyParams Addr BlockId Network Epoch Shard Hash)
    (parent_id : BlockId) (current_height : Nat) :
    Block Addr BlockId Network Epoch Shard Hash :=
  Block.dummy_block p.hashHeader p.network parent_id
    (p.leader_strategy p.local_committee current_height) current_height
    p.high_qc p.epoch p.shard p.parent_merkle_root p.parent_timestamp
    p.parent_base_layer_block_height p.parent_base_layer_block_hash

/-- The `loop` of `with_dummy_blocks` (common.rs lines 137-167), with the
visitor as a state transformer returning its updated state and a break flag
(`ControlFlow::Break`).  `fuel = new_height - current_height` counts the
remaining iterations after the current one (the loop exits when
`current_height == new_height`). -/
def with_dummy_blocks_aux {σ : Type}
    (p : DummyParams Addr BlockId Network Epoch Shard Hash)
    (callback : Block Addr BlockId Network Epoch Shard Hash → σ → σ × Bool)
    (parent_id : BlockId) (current_height : Nat) (fuel : Nat) (s : σ) : σ :=
  let dummy_block := dummyAt p parent_id current_height
  let res := callback dummy_block s
  if res.2 then res.1
  else
    match fuel with
    | 0 => res.1
    | fuel' + 1 =>
      with_dummy_blocks_aux p callback dummy_block.id (current_height + 1) fuel' res.1

/-- `with_dummy_blocks` (common.rs lines 101-168): guard, then the synthesis
loop from `high_qc.block_height + 1` up to `new_height`. -/
def with_dummy_blocks {σ : Type}
    (p : DummyParams Addr BlockId Network Epoch Shard Hash) (new_height : Nat)
    (callback : Block Addr BlockId Network Epoch Shard Hash → σ → σ × Bool)
    (s : σ) : σ :=
  if p.high_qc.block_height + 1 > new_height then s
  else
    with_dummy_blocks_aux p callback p.high_qc.block_id (p.high_qc.block_height + 1)
      (new_height - (p.high_qc.block_height + 1)) s

/-- `calculate_last_dummy_block` (common.rs lines 32-65): visit every dummy,
remember the last as a `LeafBlock`, never break. -/
def calculate_last_dummy_block
    (hashHeader : BlockHeader Addr BlockId Network Epoch Shard Hash → BlockId)
    (network : Network) (epoch : Epoch) (shard : Shard)
    (high_qc : QuorumCertificate BlockId Epoch Shard) (parent_merkle_root : Hash)
    (new_height : Nat) (leader_strategy : List Addr → Nat → Addr)
    (local_committee : List Addr) (parent_timestamp : Nat)
    (parent_base_layer_block_height : Nat) (parent_base_layer_block_hash : Hash) :
    Option (LeafBlock BlockId Epoch) :=
  with_dummy_blocks
    { hashHeader := hashHeader, network := network, epoch := epoch, shard := shard
      high_qc := high_qc, parent_merkle_root := parent_merkle_root
      leader_strategy := leader_strategy, local_committee := local_committee
      parent_timestamp := parent_timestamp
      parent_base_layer_block_height := parent_base_layer_block_height
      parent_base_layer_block_hash := parent_base_layer_block_hash }
    new_height
    (fun dummy_block _ => (some dummy_block.as_leaf_block, false))
    none

/-- `calculate_dummy_blocks` (common.rs lines 68-99): collect every dummy,
breaking after the dummy whose id matches the candidate block's parent. -/
def calculate_dummy_blocks [DecidableEq BlockId]
    (hashHeader : BlockHeader Addr BlockId Network Epoch Shard Hash → BlockId)
    (candidate_block justify_block : Block Addr BlockId Network Epoch Shard Hash)
    (leader_strategy : List Addr → Nat → Addr) (local_committee : List Addr) :
    List (Block Addr BlockId Network Epoch Shard Hash) :=
  with_dummy_blocks
    { hashHeader := hashHeader, network := candidate_block.network
      epoch := justify_block.epoch, shard := justify_block.shard
      high_qc := candidate_block.justify, parent_merkle_root := justify_block.merkle_root
      leader_strategy := leader_strategy, local_committee := local_committee
      parent_timestamp := justify_block.timestamp
      parent_base_layer_block_height := justify_block.base_layer_block_height
      parent_base_layer_block_hash := justify_block.base_layer_block_hash }
    candidate_block.height
    (fun dummy_block dummies =>
      (dummies ++ [dummy_block], decide (dummy_block.id = candidate_block.parent)))
    []

/-- The full sequence of dummy blocks handed to the visitor when it never
breaks (the sequence "produced by the synthesizer"). -/
def dummy_block_sequence (p : DummyParams Addr BlockId Network Epoch Shard Hash)
    (new_height : Nat) : List (Block Addr BlockId Network Epoch Shard Hash) :=
  with_dummy_blocks p new_height (fun dummy_block dummies => (dummies ++ [dummy_block], false)) []

/-- The parent id of the `i`-th synthesized dummy: the starting parent for
`i = 0`, and otherwise the id of the chain of dummies built before it. -/
def chain_id (p : DummyParams Addr BlockId Network Epoch Shard Hash) :
    BlockId → Nat → Nat → BlockId
  | parent_id, _, 0 => parent_id
  | parent_id, h, i + 1 => chain_id p (dummyAt p parent_id h).id (h + 1) i

/-- Closed form of the collecting loop. -/
def expected_dummies (p : DummyParams Addr BlockId Network Epoch Shard Hash)
    (parent_id : BlockId) (h : Nat) (fuel : Nat) :
    List (Block Addr BlockId Network Epoch Shard Hash) :=
  (List.range (fuel + 1)).map (fun i => dummyAt p (chain_id p parent_id h i) (h + i))

theorem expected_dummies_succ (p : DummyParams Addr BlockId Network Epoch Shard Hash)
    (parent_id : BlockId) (h : Nat) (fuel : Nat) :
    expected_dummies p parent_id h (fuel + 1) =
      dummyAt p parent_id h :: expected_dummies p (dummyAt p parent_id h).id (h + 1) fuel := by
  unfold expected_dummies
  rw [List.range_succ_eq_map]
  simp only [List.map_cons, List.map_map]
  refine congrArg₂ _ rfl ?_
  refine List.map_congr_left ?_
  intro i _
  show dummyAt p (chain_id p parent_id h (i + 1)) (h + (i + 1)) = _
  rw [show h + (i + 1) = (h + 1) + i by omega]
  rfl

theorem with_dummy_blocks_aux_collect (p : DummyParams Addr BlockId Network Epoch Shard Hash)
    (fuel : Nat) :
    ∀ (parent_id : BlockId) (h : Nat) (acc : List (Block Addr BlockId Network Epoch Shard Hash)),
      with_dummy_blocks_aux p (fun dummy_block dummies => (dummies ++ [dummy_block], false))
          parent_id h fuel acc =
        acc ++ expected_dummies p parent_id h fuel := by
  induction fuel with
  | zero =>
    intro parent_id h acc
    simp [with_dummy_blocks_aux, expected_dummies, List.range_succ, chain_id]
  | succ fuel ih =>
    intro parent_id h acc
    rw [expected_dummies_succ]
    show with_dummy_blocks_aux p _ (dummyAt p parent_id h).id (h + 1) fuel (acc ++ [dummyAt p parent_id h]) = _
    rw [ih]
    simp

/-- The id of the `i+1`-st parent is the id of the `i`-th dummy. -/
theorem chain_id_succ (p : DummyParams Addr BlockId Network Epoch Shard Hash) (i : Nat) :
    ∀ (parent_id : BlockId) (h : Nat),
      chain_id p parent_id h (i + 1) = (dummyAt p (chain_id p parent_id h i) (h + i)).id := by
  induction i with
  | zero => intro parent_id h; simp [chain_id]
  | succ i ih =>
    intro parent_id h
    show chain_id p (dummyAt p parent_id h).id (h + 1) (i + 1) = _
    rw [ih]
    rw [show (h + 1) + i = h + (i + 1) by omega]
    rfl

theorem dummy_block_sequence_eq (p : DummyParams Addr BlockId Network Epoch Shard Hash)
    (new_height : Nat) (hle : p.high_qc.block_height + 1 ≤ new_height) :
    dummy_block_sequence p new_height =
      expected_dummies p p.high_qc.block_id (p.high_qc.block_height + 1)
        (new_height - (p.high_qc.block_height + 1)) := by
  unfold dummy_block_sequence with_dummy_blocks
  rw [if_neg (by omega)]
  rw [with_dummy_blocks_aux_collect]
  simp

/-- The properties claimed of a synthesized dummy-block sequence: non-empty,
one block per height from `high_qc.block_height + 1` to `new_height`, parent
chaining from `high_qc.block_id`, leader-selected proposers, and the justify
QC / Merkle root / timestamp / base-layer pointers inherited unchanged. -/
def DummySequenceSpec (p : DummyParams Addr BlockId Network Epoch Shard Hash)
    (new_height : Nat) (l : List (Block Addr BlockId Network Epoch Shard Hash)) : Prop :=
  l ≠ [] ∧
  l.length = new_height - p.high_qc.block_height ∧
  (∀ i, (hi : i < l.length) → (l[i]).height = p.high_qc.block_height + 1 + i) ∧
  (∀ h0 : 0 < l.length, (l[0]).parent = p.high_qc.block_id) ∧
  (∀ i, (hi : i < l.length) → (hi1 : i + 1 < l.length) → (l[i + 1]).parent = (l[i]).id) ∧
  (∀ i, (hi : i < l.length) →
    (l[i]).proposer = p.leader_strategy p.local_committee (p.high_qc.block_height + 1 + i)) ∧
  (∀ b ∈ l,
    b.justify = p.high_qc ∧
    b.merkle_root = p.parent_merkle_root ∧
    b.timestamp = p.parent_timestamp ∧
    b.base_layer_block_height = p.parent_base_layer_block_height ∧
    b.base_layer_block_hash = p.parent_base_layer_block_hash)

/-- C2: every dummy-block sequence produced by the synthesizer (when
`high_qc.block_height + 1 ≤ new_height`) has heights strictly increasing by
exactly one starting at `high_qc.block_height + 1`, the first dummy's parent
equals `high_qc.block_id`, every subsequent dummy's parent equals the
preceding dummy's id, each dummy's proposer is `leader(committee, height)`,
and each dummy carries the justify QC, parent Merkle root, parent timestamp
and parent base-layer pointers unchanged. -/
theorem dummy_block_sequence_spec (p : DummyParams Addr BlockId Network Epoch Shard Hash)
    (new_height : Nat) (hle : p.high_qc.block_height + 1 ≤ new_height) :
    DummySequenceSpec p new_height (dummy_block_sequence p new_height) := by
  rw [dummy_block_sequence_eq p new_height hle]
  set h0 := p.high_qc.block_height + 1 with hh0
  set fuel := new_height - h0 with hfuel
  unfold expected_dummies
  refine ⟨by simp, by simp; omega, ?_, ?_, ?_, ?_, ?_⟩
  · intro i hi
    simp only [List.length_map, List.length_range] at hi
    simp only [List.getElem_map, List.getElem_range]
    show (dummyAt p _ (h0 + i)).height = _
    simp [dummyAt, Block.dummy_block, Block.height]
  · intro hlen
    simp only [List.getElem_map, List.getElem_range]
    show (dummyAt p (chain_id p _ _ 0) (h0 + 0)).parent = _
    simp [chain_id, dummyAt, Block.dummy_block, Block.parent]
  · intro i hi hi1
    simp only [List.length_map, List.length_range] at hi hi1
    simp only [List.getElem_map, List.getElem_range]
    show (dummyAt p (chain_id p _ _ (i + 1)) (h0 + (i + 1))).parent = _
    rw [chain_id_succ]
    simp [dummyAt, Block.dummy_block, Block.parent]
  · intro i hi
    simp only [List.length_map, List.length_range] at hi
    simp only [List.getElem_map, List.getElem_range]
    simp [dummyAt, Block.dummy_block, Block.proposer]
  · intro b hb
    simp only [List.mem_map] at hb
    obtain ⟨i, _, rfl⟩ := hb
    exact ⟨rfl, rfl, rfl, rfl, rfl⟩

/-- C9: when `high_qc.block_height + 1 > new_height`, dummy-block synthesis
emits no blocks: `calculate_last_dummy_block` returns `none` and
`calculate_dummy_blocks` returns the empty vector. -/
theorem dummy_synthesis_guard_emits_nothing [DecidableEq BlockId]
    (hashHeader : BlockHeader Addr BlockId Network Epoch Shard Hash → BlockId)
    (network : Network) (epoch : Epoch) (shard : Shard)
    (high_qc : QuorumCertificate BlockId Epoch Shard) (parent_merkle_root : Hash)
    (new_height : Nat) (leader_strategy : List Addr → Nat → Addr)
    (local_committee : List Addr) (parent_timestamp : Nat)
    (parent_base_layer_block_height : Nat) (parent_base_layer_block_hash : Hash)
    (candidate_block justify_block : Block Addr BlockId Network Epoch Shard Hash)
    (hgt : high_qc.block_height + 1 > new_height)
    (hgt2 : candidate_block.justify.block_height + 1 > candidate_block.height) :
    calculate_last_dummy_block hashHeader network epoch shard high_qc parent_merkle_root
        new_height leader_strategy local_committee parent_timestamp
        parent_base_layer_block_height parent_base_layer_block_hash = none ∧
    calculate_dummy_blocks hashHeader candidate_block justify_block
        leader_strategy local_committee = [] := by
  constructor
  · unfold calculate_last_dummy_block with_dummy_blocks
    rw [if_pos hgt]
  · unfold calculate_dummy_blocks with_dummy_blocks
    rw [if_pos hgt2]

end DummyBlocks

/-- Concrete instantiation used by the witnesses: round-robin leader over a
four-member committee (spec §8 scenario 1), high QC at height 10 with id 77,
target height 13. -/
def exampleDummyParams : DummyParams Nat Nat Unit Nat Nat Nat :=
  { hashHeader := fun header => 1000 + header.height
    network := ()
    epoch := 2
    shard := 0
    high_qc := { block_id := 77, block_height := 10, epoch := 2, shard := 0 }
    parent_merkle_root := 5
    leader_strategy := fun committee height => committee.getD (height % committee.length) 0
    local_committee := [101, 102, 103, 104]
    parent_timestamp := 99
    parent_base_layer_block_height := 7
    parent_base_layer_block_hash := 8 }

/-- Witness for C2: scenario 1 of spec §8 (committee of four, high QC at
height 10, dummies to height 13). -/
theorem dummy_block_sequence_spec_witness :
    exampleDummyParams.high_qc.block_height + 1 ≤ 13 ∧
    DummySequenceSpec exampleDummyParams 13 (dummy_block_sequence exampleDummyParams 13) :=
  ⟨by decide, dummy_block_sequence_spec exampleDummyParams 13 (by decide)⟩

/-- A concrete candidate block whose justify QC is above its own height,
exercising the guard of `with_dummy_blocks`. -/
def exampleGuardBlock : Block Nat Nat Unit Nat Nat Nat :=
  { id := 500
    header :=
      { parent_id := 499
        height := 5
        epoch := 2
        shard := 0
        network := ()
        justify := { block_id := 77, block_height := 10, epoch := 2, shard := 0 }
        proposer := 101
        state_merkle_root := 5
        timestamp := 99
        base_layer_height := 7
        base_layer_hash := 8
        is_dummy := false } }

/-- Witness for C9: with the high QC at height 10 and target height 5 the
synthesizer emits nothing. -/
theorem dummy_synthesis_guard_emits_nothing_witness :
    (10 + 1 > 5) ∧
    calculate_last_dummy_block exampleDummyParams.hashHeader () 2 0 exampleDummyParams.high_qc 5
        5 exampleDummyParams.leader_strategy exampleDummyParams.local_committee 99 7 8 = none ∧
    calculate_dummy_blocks exampleDummyParams.hashHeader exampleGuardBlock exampleGuardBlock
        exampleDummyParams.leader_strategy exampleDummyParams.local_committee = [] := by
  refine ⟨by decide, ?_⟩
  have h := dummy_synthesis_guard_emits_nothing exampleDummyParams.hashHeader () 2 0
    exampleDummyParams.high_qc 5 5 exampleDummyParams.leader_strategy
    exampleDummyParams.local_committee 99 7 8 exampleGuardBlock exampleGuardBlock
    (by decide) (by decide)
  exact h

end Hotstuff

namespace Sync

open Hotstuff

/-- `LastProposed` (spec §3): the most recent block this node authored. -/
structure LastProposed (BlockId Epoch : Type) where
  height : Nat
  block_id : BlockId
  epoch : Epoch
deriving DecidableEq

def LastProposed.as_leaf_block {BlockId Epoch : Type} (lp : LastProposed BlockId Epoch) :
    LeafBlock BlockId Epoch :=
  { block_id := lp.block_id, height := lp.height, epoch := lp.epoch }

/-- Modelled from the spec: `Block::is_genesis` (tari_dan_storage, not under
src/).  Spec §3: genesis has `height = 0`; §4.1: genesis is identifiable. -/
def Block.is_genesis {Addr BlockId Network Epoch Shard Hash : Type}
    (b : Block Addr BlockId Network Epoch Shard Hash) : Bool :=
  b.height == 0

/-- The store contents read by the sync handler, for the local epoch: the
`LeafBlock` and optional `LastProposed` rows, the persisted blocks (listed in
ascending height order, as the store's `get_all_blocks_between` contract
returns them), the optional `LastSentVote`, and the per-block foreign-proposal
attachments (`Block::get_foreign_proposals`). -/
structure StoreState (Addr BlockId Network Epoch Shard Hash Vote FP : Type) where
  leaf_block : LeafBlock BlockId Epoch
  last_proposed : Option (LastProposed BlockId Epoch)
  blocks : List (Block Addr BlockId Network Epoch Shard Hash)
  last_sent_vote : Option Vote
  foreign_proposals : BlockId → List FP

/-- Modelled from the spec: `Block::get_all_blocks_between` (tari_dan_storage,
not under src/).  Spec §4.1: signature
`(epoch, shard, lo_height, hi_height, inclusive, limit)`, ordering strictly by
ascending height, `limit` a hard cap; §8: with `lo = hi` it returns exactly
that block when inclusive and nothing when exclusive, so `inclusive` makes
both bounds inclusive.  The store list is kept in ascending order, so the
result preserves it. -/
def get_all_blocks_between {Addr BlockId Network Epoch Shard Hash : Type}
    [DecidableEq Epoch] [DecidableEq Shard]
    (blocks : List (Block Addr BlockId Network Epoch Shard Hash))
    (epoch : Epoch) (shard : Shard) (lo_height hi_height : Nat)
    (inclusive : Bool) (limit : Nat) :
    List (Block Addr BlockId Network Epoch Shard Hash) :=
  ((blocks.filter fun b =>
      decide (b.epoch = epoch) && decide (b.shard = shard) &&
        (if inclusive then decide (lo_height ≤ b.height) && decide (b.height ≤ hi_height)
         else decide (lo_height < b.height) && decide (b.height < hi_height))).take limit)

/-- A message sent by the sync handler to the requesting peer. -/
inductive OutboundMessage (Addr BlockId Network Epoch Shard Hash Vote FP : Type) where
  | proposal (block : Block Addr BlockId Network Epoch Shard Hash)
      (foreign_proposals : List FP) : OutboundMessage Addr BlockId Network Epoch Shard Hash Vote FP
  | vote (v : Vote) : OutboundMessage Addr BlockId Network Epoch Shard Hash Vote FP
deriving DecidableEq

section Handler

variable {Addr BlockId Network Epoch Shard Hash Vote FP : Type}
variable [DecidableEq Epoch] [DecidableEq Shard]

/-- The trailing `LastSentVote` replay of the handler
(on_catch_up_sync_request.rs lines 155-170). -/
def last_vote_messages (st : StoreState Addr BlockId Network Epoch Shard Hash Vote FP) :
    List (OutboundMessage Addr BlockId Network Epoch Shard Hash Vote FP) :=
  match st.last_sent_vote with
  | some v => [OutboundMessage.vote v]
  | none => []

/-- The local leaf computed by the handler (lines 58-63): `LeafBlock`,
replaced by `LastProposed` when the latter's height is strictly greater. -/
def computed_leaf (st : StoreState Addr BlockId Network Epoch Shard Hash Vote FP) :
    LeafBlock BlockId Epoch :=
  match st.last_proposed with
  | some lp => if lp.height > st.leaf_block.height then lp.as_leaf_block else st.leaf_block
  | none => st.leaf_block

/-- `OnSyncRequest::handle` (on_catch_up_sync_request.rs lines 35-172) as the
ordered list of messages sent to the requesting peer, as a function of the
store snapshot.  The epoch-mismatch and peer-ahead error paths send nothing;
the height-zero path returns `Ok(vec![])` from the read transaction and then
still falls through to the `LastSentVote` replay. -/
def OnSyncRequest.handle (st : StoreState Addr BlockId Network Epoch Shard Hash Vote FP)
    (local_epoch : Epoch) (shard : Shard)
    (high_qc : QuorumCertificate BlockId Epoch Shard) :
    List (OutboundMessage Addr BlockId Network Epoch Shard Hash Vote FP) :=
  if high_qc.epoch ≠ local_epoch then []
  else
    let leaf_block := computed_leaf st
    if leaf_block.height = 0 then
      last_vote_messages st
    else if leaf_block.height < high_qc.block_height then
      []
    else
      let blocks := get_all_blocks_between st.blocks leaf_block.epoch shard
        high_qc.block_height leaf_block.height true 1000
      let blocks := blocks.eraseP (fun b => Block.is_genesis b)
      (blocks.map fun b => OutboundMessage.proposal b (st.foreign_proposals b.id)) ++
        last_vote_messages st

/-- The heights of the Proposal messages in a message list, in send order. -/
def proposal_heights
    (msgs : List (OutboundMessage Addr BlockId Network Epoch Shard Hash Vote FP)) : List Nat :=
  msgs.filterMap fun m =>
    match m with
    | OutboundMessage.proposal b _ => some b.height
    | OutboundMessage.vote _ => none

omit [DecidableEq Epoch] [DecidableEq Shard] in
theorem proposal_heights_cons_proposal (b : Block Addr BlockId Network Epoch Shard Hash)
    (fps : List FP) (ms : List (OutboundMessage Addr BlockId Network Epoch Shard Hash Vote FP)) :
    proposal_heights (OutboundMessage.proposal b fps :: ms) = b.height :: proposal_heights ms :=
  rfl

omit [DecidableEq Epoch] [DecidableEq Shard] in
theorem proposal_heights_cons_vote (v : Vote)
    (ms : List (OutboundMessage Addr BlockId Network Epoch Shard Hash Vote FP)) :
    proposal_heights (OutboundMessage.vote v :: ms) = proposal_heights ms :=
  rfl

omit [DecidableEq Epoch] [DecidableEq Shard] in
theorem proposal_heights_map_proposal
    (f : Block Addr BlockId Network Epoch Shard Hash → List FP)
    (l : List (Block Addr BlockId Network Epoch Shard Hash)) :
    @proposal_heights Addr BlockId Network Epoch Shard Hash Vote FP
        (l.map fun b => OutboundMessage.proposal b (f b)) = l.map Block.height := by
  induction l with
  | nil => rfl
  | cons b l ih => rw [List.map_cons, proposal_heights_cons_proposal, ih, List.map_cons]

omit [DecidableEq Epoch] [DecidableEq Shard] in
theorem proposal_heights_append
    (xs ys : List (OutboundMessage Addr BlockId Network Epoch Shard Hash Vote FP)) :
    proposal_heights (xs ++ ys) = proposal_heights xs ++ proposal_heights ys := by
  unfold proposal_heights
  exact List.filterMap_append _ _ _

/-- C4 (amended): when the computed local leaf has height zero the handler
sends no `Proposal` messages, but a persisted `LastSentVote` is still
replayed, so the reply is exactly the `LastSentVote` replay. -/
theorem handle_at_leaf_height_zero
    (st : StoreState Addr BlockId Network Epoch Shard Hash Vote FP)
    (local_epoch : Epoch) (shard : Shard) (high_qc : QuorumCertificate BlockId Epoch Shard)
    (heq : high_qc.epoch = local_epoch) (hleaf : (computed_leaf st).height = 0) :
    OnSyncRequest.handle st local_epoch shard high_qc = last_vote_messages st ∧
    (∀ b fps, OutboundMessage.proposal b fps ∉ OnSyncRequest.handle st local_epoch shard high_qc) := by
  have h1 : OnSyncRequest.handle st local_epoch shard high_qc = last_vote_messages st := by
    unfold OnSyncRequest.handle
    rw [if_neg (by simp [heq]), if_pos hleaf]
  refine ⟨h1, ?_⟩
  intro b fps hmem
  rw [h1] at hmem
  unfold last_vote_messages at hmem
  cases h : st.last_sent_vote <;> rw [h] at hmem <;> simp at hmem

/-- The conjunction claimed of a validated sync request: the reply streams
exactly the loaded blocks (genesis stripped) as `Proposal` messages carrying
their foreign proposals, followed by the `LastSentVote` replay, and the
streamed blocks are in ascending height order. -/
def SyncStreamSpec (st : StoreState Addr BlockId Network Epoch Shard Hash Vote FP)
    (local_epoch : Epoch) (shard : Shard)
    (high_qc : QuorumCertificate BlockId Epoch Shard) : Prop :=
  ((OnSyncRequest.handle st local_epoch shard high_qc =
    ((get_all_blocks_between st.blocks (computed_leaf st).epoch shard
        high_qc.block_height (computed_leaf st).height true 1000).eraseP
          (fun b => Block.is_genesis b)).map
      (fun b => OutboundMessage.proposal b (st.foreign_proposals b.id)) ++
      last_vote_messages st) ∧
    (proposal_heights (OnSyncRequest.handle st local_epoch shard high_qc)).Pairwise (· < ·))

/-- C5: for every sync request that passes validation (matching epoch,
non-zero leaf, `leaf.height ≥ high_qc.block_height`), the handler loads blocks
via `get_all_blocks_between` with `lo = high_qc.block_height`,
`hi = leaf.height`, `inclusive = true`, `limit = 1000`, removes the genesis
block from the result, and streams the remaining blocks in ascending height
order, each as a `Proposal` message carrying its foreign proposals, followed
by the `LastSentVote` replay. -/
theorem handle_streams_blocks_ascending
    (st : StoreState Addr BlockId Network Epoch Shard Hash Vote FP)
    (local_epoch : Epoch) (shard : Shard) (high_qc : QuorumCertificate BlockId Epoch Shard)
    (heq : high_qc.epoch = local_epoch) (hnz : (computed_leaf st).height ≠ 0)
    (hge : high_qc.block_height ≤ (computed_leaf st).height)
    (hsorted : st.blocks.Pairwise (fun a b => a.height < b.height)) :
    SyncStreamSpec st local_epoch shard high_qc := by
  have h1 : OnSyncRequest.handle st local_epoch shard high_qc =
      ((get_all_blocks_between st.blocks (computed_leaf st).epoch shard
          high_qc.block_height (computed_leaf st).height true 1000).eraseP
            (fun b => Block.is_genesis b)).map
        (fun b => OutboundMessage.proposal b (st.foreign_proposals b.id)) ++
        last_vote_messages st := by
    unfold OnSyncRequest.handle
    rw [if_neg (by simp [heq]), if_neg hnz, if_neg (by omega)]
  refine ⟨h1, ?_⟩
  have hsub :
      ((get_all_blocks_between st.blocks (computed_leaf st).epoch shard
          high_qc.block_height (computed_leaf st).height true 1000).eraseP
            (fun b => Block.is_genesis b)).Sublist st.blocks := by
    refine List.Sublist.trans (List.eraseP_sublist _) ?_
    unfold get_all_blocks_between
    exact List.Sublist.trans (List.take_sublist _ _) (List.filter_sublist _)
  have hpw := hsorted.sublist hsub
  rw [h1, proposal_heights_append, proposal_heights_map_proposal]
  have hvotes : proposal_heights (last_vote_messages st) = ([] : List Nat) := by
    unfold last_vote_messages
    cases st.last_sent_vote
    · rfl
    · rw [proposal_heights_cons_vote]
      rfl
  rw [hvotes, List.append_nil, List.pairwise_map]
  exact hpw

end Handler

/-- The chain block at height `h` in the concrete catch-up scenario
(spec §8 scenario 2): a linear chain of blocks at heights 0..=50. -/
def chainBlock (h : Nat) : Block Nat Nat Unit Nat Nat Nat :=
  { id := h
    header :=
      { parent_id := h - 1
        height := h
        epoch := 1
        shard := 0
        network := ()
        justify := { block_id := h - 1, block_height := h - 1, epoch := 1, shard := 0 }
        proposer := 0
        state_merkle_root := 0
        timestamp := 0
        base_layer_height := 0
        base_layer_hash := 0
        is_dummy := false } }

/-- The concrete store of the catch-up scenario: local leaf at height 50, a
persisted `LastSentVote`, no foreign proposals. -/
def catchUpStore : StoreState Nat Nat Unit Nat Nat Nat Nat Nat :=
  { leaf_block := { block_id := 50, height := 50, epoch := 1 }
    last_proposed := none
    blocks := (List.range 51).map chainBlock
    last_sent_vote := some 7
    foreign_proposals := fun _ => [] }

/-- The peer's high QC in the catch-up scenario: height 42. -/
def catchUpHighQc : QuorumCertificate Nat Nat Nat :=
  { block_id := 42, block_height := 42, epoch := 1, shard := 0 }

/-- Counterexample to C3 as stated: in the catch-up scenario (local leaf at
height 50, peer high-QC at height 42) the response contains the block at
height 42 as well — the loaded range is `42..=50`, not `43..=50`. -/
theorem catch_up_includes_high_qc_height :
    proposal_heights (OnSyncRequest.handle catchUpStore 1 0 catchUpHighQc) =
      [42, 43, 44, 45, 46, 47, 48, 49, 50] ∧
    ([42, 43, 44, 45, 46, 47, 48, 49, 50] ≠ [43, 44, 45, 46, 47, 48, 49, 50]) := by
  constructor
  · decide
  · decide

/-- C3 (amended): in the catch-up scenario the handler responds with exactly
the blocks at heights 42 through 50 inclusive (the peer's high-QC height
included, genesis excluded), then replays the persisted `LastSentVote`. -/
theorem catch_up_scenario_response :
    OnSyncRequest.handle catchUpStore 1 0 catchUpHighQc =
      (List.map (fun h => OutboundMessage.proposal (chainBlock h) [])
        [42, 43, 44, 45, 46, 47, 48, 49, 50]) ++ [OutboundMessage.vote 7] := by
  decide

/-- Witness for C4: a store at leaf height zero with a persisted
`LastSentVote`. -/
def heightZeroStore : StoreState Nat Nat Unit Nat Nat Nat Nat Nat :=
  { leaf_block := { block_id := 0, height := 0, epoch := 1 }
    last_proposed := none
    blocks := [chainBlock 0]
    last_sent_vote := some 42
    foreign_proposals := fun _ => [] }

/-- Counterexample to C4 as stated: with the computed leaf at height zero and
a persisted `LastSentVote`, the handler still sends the vote message, so it
does not reply with no messages of any kind. -/
theorem handle_at_height_zero_sends_last_vote :
    OnSyncRequest.handle heightZeroStore 1 0
        { block_id := 9, block_height := 3, epoch := 1, shard := 0 } =
      [OutboundMessage.vote 42] ∧
    OnSyncRequest.handle heightZeroStore 1 0
        { block_id := 9, block_height := 3, epoch := 1, shard := 0 } ≠ [] := by
  constructor
  · decide
  · decide

/-- Witness for C4 (amended). -/
theorem handle_at_leaf_height_zero_witness :
    ((({ block_id := 9, block_height := 3, epoch := 1, shard := 0 } :
        QuorumCertificate Nat Nat Nat).epoch = 1) ∧
      (computed_leaf heightZeroStore).height = 0) ∧
    (OnSyncRequest.handle heightZeroStore 1 0
        { block_id := 9, block_height := 3, epoch := 1, shard := 0 } =
      last_vote_messages heightZeroStore ∧
    (∀ b fps, OutboundMessage.proposal b fps ∉
      OnSyncRequest.handle heightZeroStore 1 0
        { block_id := 9, block_height := 3, epoch := 1, shard := 0 })) :=
  ⟨⟨by decide, by decide⟩,
    handle_at_leaf_height_zero heightZeroStore 1 0
      { block_id := 9, block_height := 3, epoch := 1, shard := 0 } (by decide) (by decide)⟩

/-- Witness for C5: the catch-up scenario store passes validation and the
streamed response is as specified. -/
theorem handle_streams_blocks_ascending_witness :
    (catchUpHighQc.epoch = 1 ∧ (computed_leaf catchUpStore).height ≠ 0 ∧
      catchUpHighQc.block_height ≤ (computed_leaf catchUpStore).height ∧
      catchUpStore.blocks.Pairwise (fun a b => a.height < b.height)) ∧
    SyncStreamSpec catchUpStore 1 0 catchUpHighQc :=
  ⟨⟨by decide, by decide, by decide, by decide⟩,
    handle_streams_blocks_ascending catchUpStore 1 0 catchUpHighQc
      (by decide) (by decide) (by decide) (by decide)⟩

end Sync

namespace Confidential

/-- The order of the Ristretto group (the scalar field modulus of
`RistrettoSecretKey`). -/
def ristrettoOrder : Nat :=
  7237005577332262213973186563042994240857116359379907606001950938285454250989

instance : NeZero ristrettoOrder := ⟨by decide⟩

/-- Ristretto scalars (`RistrettoSecretKey` values). -/
abbrev Scalar := ZMod ristrettoOrder

/-- Little-endian byte encoding of a natural number on `w` bytes. -/
def natToLeBytes : Nat → Nat → List Nat
  | 0, _ => []
  | w + 1, v => v % 256 :: natToLeBytes w (v / 256)

/-- Little-endian byte decoding. -/
def leBytesToNat : List Nat → Nat
  | [] => 0
  | b :: bs => b + 256 * leBytesToNat bs

theorem natToLeBytes_length (w : Nat) : ∀ v : Nat, (natToLeBytes w v).length = w := by
  induction w with
  | zero => intro v; rfl
  | succ w ih => intro v; simp [natToLeBytes, ih]

theorem leBytesToNat_natToLeBytes (w : Nat) :
    ∀ v : Nat, v < 256 ^ w → leBytesToNat (natToLeBytes w v) = v := by
  induction w with
  | zero =>
    intro v hv
    simp only [pow_zero, Nat.lt_one_iff] at hv
    simp [natToLeBytes, leBytesToNat, hv]
  | succ w ih =>
    intro v hv
    have hdiv : v / 256 < 256 ^ w := by
      rw [Nat.div_lt_iff_lt_mul (by norm_num)]
      calc v < 256 ^ (w + 1) := hv
        _ = 256 ^ w * 256 := pow_succ 256 w
    simp only [natToLeBytes, leBytesToNat]
    rw [ih (v / 256) hdiv]
    omega

/-- `RistrettoSecretKey::as_bytes`: the canonical 32-byte little-endian
encoding of a scalar. -/
def scalarToBytes (m : Scalar) : List Nat := natToLeBytes 32 m.val

/-- `RistrettoSecretKey::from_canonical_bytes`: succeeds exactly on 32-byte
little-endian encodings of values below the group order. -/
def scalarFromCanonicalBytes (bs : List Nat) : Option Scalar :=
  if bs.length = 32 ∧ leBytesToNat bs < ristrettoOrder then
    some ((leBytesToNat bs : Nat) : Scalar)
  else none

theorem scalarFromCanonicalBytes_scalarToBytes (m : Scalar) :
    scalarFromCanonicalBytes (scalarToBytes m) = some m := by
  have hval : m.val < ristrettoOrder := ZMod.val_lt m
  have h256 : m.val < 256 ^ 32 := lt_trans hval (by decide)
  have hdec : leBytesToNat (natToLeBytes 32 m.val) = m.val :=
    leBytesToNat_natToLeBytes 32 m.val h256
  unfold scalarFromCanonicalBytes scalarToBytes
  rw [if_pos ⟨natToLeBytes_length 32 m.val, by rw [hdec]; exact hval⟩, hdec]
  exact congrArg some (ZMod.natCast_rightInverse m)

theorem scalarToBytes_length (m : Scalar) : (scalarToBytes m).length = 32 :=
  natToLeBytes_length 32 m.val

/-- The Pedersen commitment factory
(`get_commitment_factory().commit(k, v) = k·G + v·H`). -/
def commit {Point : Type} [AddCommGroup Point] [Module Scalar Point]
    (G H : Point) (k v : Scalar) : Point :=
  k • G + v • H

/-- `ViewableBalanceProof` (tari_template_lib): the five commitment byte
fields and the three signature byte fields. -/
structure ViewableBalanceProof (PB SB : Type) where
  elgamal_encrypted : PB
  elgamal_public_nonce : PB
  c_prime : PB
  e_prime : PB
  r_prime : PB
  s_v : SB
  s_m : SB
  s_r : SB
deriving DecidableEq

section ViewableBalance

variable {Point PB SB : Type} [AddCommGroup Point] [Module Scalar Point]

/-- `create_viewable_balance_proof` (proof.rs lines 125-191).  The curve is
modelled as a module over the scalar field with generators `G` and `H`;
`pointBytes` is the compressed-point encoding (`copy_fixed(x.as_bytes())`),
`scalarBytes` the signature-scalar encoding, and `challenge64` the
domain-separated 64-byte Fiat-Shamir challenge
(`challenges::viewable_balance_proof_challenge64`) composed with the wide
reduction applied by `sign_raw_uniform`, which computes `s = nonce + e·k` and
is infallible here because the challenge is modelled already reduced.  The
random samples (the ElGamal ephemeral secret `r` and the Sigma nonces
`x_v, x_m, x_r`) are explicit inputs. -/
def create_viewable_balance_proof (G H : Point)
    (pointBytes : Point → PB) (scalarBytes : Scalar → SB)
    (challenge64 : Point → Point → PB → PB → PB → PB → PB → Scalar)
    (mask : Scalar) (output_amount : Nat) (commitment : Point) (view_key : Point)
    (elgamal_secret_nonce x_v x_m x_r : Scalar) :
    ViewableBalanceProof PB SB :=
  let r := elgamal_secret_nonce
  let elgamal_public_nonce := r • G
  let value_as_secret : Scalar := (output_amount : Scalar)
  let elgamal_encrypted := value_as_secret • G + r • view_key
  let c_prime := commit G H x_m x_v
  let e_prime := x_v • G + x_r • view_key
  let r_prime := x_r • G
  let eb := pointBytes elgamal_encrypted
  let rb := pointBytes elgamal_public_nonce
  let cpb := pointBytes c_prime
  let epb := pointBytes e_prime
  let rpb := pointBytes r_prime
  let e := challenge64 commitment view_key eb rb cpb epb rpb
  { elgamal_encrypted := eb
    elgamal_public_nonce := rb
    c_prime := cpb
    e_prime := epb
    r_prime := rpb
    s_v := scalarBytes (x_v + e * value_as_secret)
    s_m := scalarBytes (x_m + e * mask)
    s_r := scalarBytes (x_r + e * r) }

/-- The equations claimed of a viewable-balance proof built with mask `m`,
amount `a`, commitment `C` and view key `P`: `E = a·G + r·P`, `R = r·G`,
`C' = x_m·G + x_v·H`, `E' = x_v·G + x_r·P`, `R' = x_r·G`, and
`s_v = e·a + x_v`, `s_m = e·m + x_m`, `s_r = e·r + x_r` where `e` is the
challenge over `(C, P, E, R, C', E', R')`. -/
def ViewableBalanceProofSpec (G H : Point)
    (pointBytes : Point → PB) (scalarBytes : Scalar → SB)
    (challenge64 : Point → Point → PB → PB → PB → PB → PB → Scalar)
    (mask : Scalar) (output_amount : Nat) (commitment : Point) (view_key : Point)
    (r x_v x_m x_r : Scalar) (proof : ViewableBalanceProof PB SB) : Prop :=
  proof.elgamal_encrypted = pointBytes ((output_amount : Scalar) • G + r • view_key) ∧
  proof.elgamal_public_nonce = pointBytes (r • G) ∧
  proof.c_prime = pointBytes (x_m • G + x_v • H) ∧
  proof.e_prime = pointBytes (x_v • G + x_r • view_key) ∧
  proof.r_prime = pointBytes (x_r • G) ∧
  (proof.s_v = scalarBytes
      (challenge64 commitment view_key
          (pointBytes ((output_amount : Scalar) • G + r • view_key)) (pointBytes (r • G))
          (pointBytes (x_m • G + x_v • H)) (pointBytes (x_v • G + x_r • view_key))
          (pointBytes (x_r • G)) * (output_amount : Scalar) + x_v) ∧
    proof.s_m = scalarBytes
      (challenge64 commitment view_key
          (pointBytes ((output_amount : Scalar) • G + r • view_key)) (pointBytes (r • G))
          (pointBytes (x_m • G + x_v • H)) (pointBytes (x_v • G + x_r • view_key))
          (pointBytes (x_r • G)) * mask + x_m) ∧
    proof.s_r = scalarBytes
      (challenge64 commitment view_key
          (pointBytes ((output_amount : Scalar) • G + r • view_key)) (pointBytes (r • G))
          (pointBytes (x_m • G + x_v • H)) (pointBytes (x_v • G + x_r • view_key))
          (pointBytes (x_r • G)) * r + x_r))

/-- C6: every viewable-balance proof built by `create_viewable_balance_proof`
satisfies the claimed ElGamal, nonce-commitment and response equations with
respect to the sampled randomness and the domain-separated challenge. -/
theorem create_viewable_balance_proof_spec (G H : Point)
    (pointBytes : Point → PB) (scalarBytes : Scalar → SB)
    (challenge64 : Point → Point → PB → PB → PB → PB → PB → Scalar)
    (mask : Scalar) (output_amount : Nat) (commitment : Point) (view_key : Point)
    (r x_v x_m x_r : Scalar) :
    ViewableBalanceProofSpec G H pointBytes scalarBytes challenge64 mask output_amount
      commitment view_key r x_v x_m x_r
      (create_viewable_balance_proof G H pointBytes scalarBytes challenge64 mask
        output_amount commitment view_key r x_v x_m x_r) := by
  refine ⟨rfl, rfl, rfl, rfl, rfl, ?_, ?_, ?_⟩ <;>
    exact congrArg scalarBytes (by simp only [commit]; ring)

end ViewableBalance

/-- Witness instantiation for C6: the curve is `Scalar` itself as a module
over `Scalar`, with `G = 1`, `H = 2` and identity encodings. -/
theorem create_viewable_balance_proof_spec_witness :
    ViewableBalanceProofSpec (1 : Scalar) 2 id id
      (fun _ _ _ _ _ _ _ => 3) 5 7 (commit 1 2 5 7) 11 13 17 19 23
      (create_viewable_balance_proof 1 2 id id (fun _ _ _ _ _ _ _ => 3) 5 7
        (commit 1 2 5 7) 11 13 17 19 23) :=
  create_viewable_balance_proof_spec 1 2 id id (fun _ _ _ _ _ _ _ => 3) 5 7
    (commit 1 2 5 7) 11 13 17 19 23

/-- The associated-data tag `ENCRYPTED_DATA_TAG` (proof.rs line 193). -/
def ENCRYPTED_DATA_TAG : List Nat :=
  ("TARI_AAD_VALUE_AND_MASK_EXTEND_NONCE_VARIANT" : String).data.map Char.toNat

/-- `EncryptedData`: layout `[tag || nonce || ciphertext]` with the tag and
nonce held abstractly and the ciphertext as bytes (spec §6: tag 16 bytes,
nonce 24 bytes, payload `value(8 LE) || mask(32)` before encryption). -/
structure EncryptedData (Nonce Tag : Type) where
  tag : Tag
  nonce : Nonce
  payload : List Nat
deriving DecidableEq

/-- Outcome of `decrypt_data_and_mask`: an AEAD authentication error, the
process abort hidden in `from_canonical_bytes(..).expect(..)` when an
accepted payload holds non-canonical mask bytes, or success. -/
inductive DecryptResult where
  | aeadError : DecryptResult
  | nonCanonicalMaskAbort : DecryptResult
  | ok (value : Nat) (mask : Scalar) : DecryptResult
deriving DecidableEq

section EncryptDecrypt

variable {AeadKey Nonce Tag EncKey Com : Type} [DecidableEq Tag]

/-- `XChaCha20Poly1305::encrypt_in_place_detached`, modelled as
stream-cipher-then-MAC: `stream` is the XChaCha20 keystream XOR and `mac` the
Poly1305 tag over the associated data and ciphertext. -/
def encrypt_in_place_detached (stream : AeadKey → Nonce → List Nat → List Nat)
    (mac : AeadKey → Nonce → List Nat → List Nat → Tag)
    (key : AeadKey) (nonce : Nonce) (aad : List Nat) (buffer : List Nat) :
    List Nat × Tag :=
  let ciphertext := stream key nonce buffer
  (ciphertext, mac key nonce aad ciphertext)

/-- `XChaCha20Poly1305::decrypt_in_place_detached`: check the tag, then undo
the keystream. -/
def decrypt_in_place_detached (stream : AeadKey → Nonce → List Nat → List Nat)
    (mac : AeadKey → Nonce → List Nat → List Nat → Tag)
    (key : AeadKey) (nonce : Nonce) (aad : List Nat) (buffer : List Nat) (tag : Tag) :
    Option (List Nat) :=
  if mac key nonce aad buffer = tag then some (stream key nonce buffer) else none

/-- `encrypt_data` (proof.rs lines 195-237): derive the AEAD key from
`(encryption_key, commitment)` via the domain-separated KDF `kdf`
(`inner_encrypted_data_kdf_aead`), encode `value (8 LE) || mask (32)`, and
encrypt in place with the constant associated data; the random nonce is an
explicit input.  The stream-position failure path of the cipher cannot occur
on a 40-byte payload and is not modelled. -/
def encrypt_data (kdf : EncKey → Com → AeadKey)
    (stream : AeadKey → Nonce → List Nat → List Nat)
    (mac : AeadKey → Nonce → List Nat → List Nat → Tag)
    (encryption_key : EncKey) (commitment : Com) (value : Nat) (mask : Scalar)
    (nonce : Nonce) : EncryptedData Nonce Tag :=
  let aead_key := kdf encryption_key commitment
  let payload := natToLeBytes 8 value ++ scalarToBytes mask
  let res := encrypt_in_place_detached stream mac aead_key nonce ENCRYPTED_DATA_TAG payload
  { tag := res.2, nonce := nonce, payload := res.1 }

/-- `decrypt_data_and_mask` (proof.rs lines 239-266): derive the same AEAD
key, authenticate and decrypt, then decode the value from the first 8 bytes
(little-endian) and the mask from the next 32 bytes as canonical scalar
bytes. -/
def decrypt_data_and_mask (kdf : EncKey → Com → AeadKey)
    (stream : AeadKey → Nonce → List Nat → List Nat)
    (mac : AeadKey → Nonce → List Nat → List Nat → Tag)
    (encryption_key : EncKey) (commitment : Com)
    (encrypted_data : EncryptedData Nonce Tag) : DecryptResult :=
  let aead_key := kdf encryption_key commitment
  match decrypt_in_place_detached stream mac aead_key encrypted_data.nonce
      ENCRYPTED_DATA_TAG encrypted_data.payload encrypted_data.tag with
  | none => DecryptResult.aeadError
  | some bytes =>
    match scalarFromCanonicalBytes ((bytes.drop 8).take 32) with
    | some mask => DecryptResult.ok (leBytesToNat (bytes.take 8)) mask
    | none => DecryptResult.nonCanonicalMaskAbort

end EncryptDecrypt

/-- Flip bit `k` of a byte. -/
def flipBitInByte (b k : Nat) : Nat := b ^^^ (2 ^ k)

/-- Flip the `i`-th bit of a byte string. -/
def flipBit (bytes : List Nat) (i : Nat) : List Nat :=
  bytes.set (i / 8) (flipBitInByte (bytes.getD (i / 8) 0) (i % 8))

/-- Flip one bit of the ciphertext region of an `EncryptedData`. -/
def tamper {Nonce Tag : Type} (ed : EncryptedData Nonce Tag) (i : Nat) :
    EncryptedData Nonce Tag :=
  { ed with payload := flipBit ed.payload i }

theorem flipBitInByte_ne (b k : Nat) : flipBitInByte b k ≠ b := by
  unfold flipBitInByte
  intro h
  have ht := congrArg (fun x => Nat.testBit x k) h
  simp only [Nat.testBit_xor, Nat.testBit_two_pow_self] at ht
  cases hb : Nat.testBit b k <;> rw [hb] at ht <;> simp at ht

theorem flipBit_ne (bytes : List Nat) (i : Nat) (hi : i < 8 * bytes.length) :
    flipBit bytes i ≠ bytes := by
  have hidx : i / 8 < bytes.length := by omega
  have hb : bytes.getD (i / 8) 0 = bytes[i / 8] := by
    rw [List.getD_eq_getElem?_getD, List.getElem?_eq_getElem hidx]
    rfl
  intro h
  have hg := congrArg (fun l => l[i / 8]?) h
  simp only [flipBit] at hg
  rw [List.getElem?_set_self hidx, List.getElem?_eq_getElem hidx] at hg
  have hv := Option.some.inj hg
  rw [hb] at hv
  exact flipBitInByte_ne (bytes[i / 8]) (i % 8) hv

/-- C7: for every encryption key, commitment, u64 value and mask,
`decrypt_data_and_mask` applied to the output of `encrypt_data` (same key and
commitment) returns exactly `(value, mask)`, and any single-bit mutation of
the resulting ciphertext bytes makes decryption fail with an error.  The AEAD
is modelled as an ideal stream-cipher-then-MAC: the keystream XOR is an
involution, and the MAC is injective in the ciphertext (the idealization of
Poly1305 unforgeability). -/
theorem encrypt_then_decrypt_roundtrip_and_tamper
    {AeadKey Nonce Tag EncKey Com : Type} [DecidableEq Tag]
    (kdf : EncKey → Com → AeadKey)
    (stream : AeadKey → Nonce → List Nat → List Nat)
    (mac : AeadKey → Nonce → List Nat → List Nat → Tag)
    (encryption_key : EncKey) (commitment : Com) (value : Nat) (mask : Scalar)
    (nonce : Nonce)
    (hvalue : value < 2 ^ 64)
    (hinv : ∀ (k : AeadKey) (n : Nonce) (pt : List Nat), stream k n (stream k n pt) = pt)
    (hmacinj : ∀ (k : AeadKey) (n : Nonce) (aad : List Nat), Function.Injective (mac k n aad)) :
    decrypt_data_and_mask kdf stream mac encryption_key commitment
        (encrypt_data kdf stream mac encryption_key commitment value mask nonce) =
      DecryptResult.ok value mask ∧
    (∀ i, i < 8 * (encrypt_data kdf stream mac encryption_key commitment value mask
          nonce).payload.length →
      decrypt_data_and_mask kdf stream mac encryption_key commitment
          (tamper (encrypt_data kdf stream mac encryption_key commitment value mask nonce) i) =
        DecryptResult.aeadError) := by
  have hv64 : value < 256 ^ 8 := by
    rw [show (256 : Nat) ^ 8 = 2 ^ 64 by norm_num]
    exact hvalue
  have hdrop : (natToLeBytes 8 value ++ scalarToBytes mask).drop 8 = scalarToBytes mask := by
    conv_lhs =>
      rw [show (8 : Nat) = (natToLeBytes 8 value).length from (natToLeBytes_length 8 value).symm]
    exact List.drop_left _ _
  have htake : (natToLeBytes 8 value ++ scalarToBytes mask).take 8 = natToLeBytes 8 value := by
    conv_lhs =>
      rw [show (8 : Nat) = (natToLeBytes 8 value).length from (natToLeBytes_length 8 value).symm]
    exact List.take_left _ _
  have htake32 : (scalarToBytes mask).take 32 = scalarToBytes mask := by
    conv_lhs => rw [← scalarToBytes_length mask]
    exact List.take_length _
  constructor
  · simp only [encrypt_data, encrypt_in_place_detached, decrypt_data_and_mask,
      decrypt_in_place_detached, if_pos, eq_self_iff_true, if_true, hinv]
    rw [hdrop, htake32, scalarFromCanonicalBytes_scalarToBytes, htake,
      leBytesToNat_natToLeBytes 8 value hv64]
  · intro i hi
    simp only [encrypt_data, encrypt_in_place_detached] at hi
    simp only [encrypt_data, encrypt_in_place_detached, tamper, decrypt_data_and_mask,
      decrypt_in_place_detached]
    rw [if_neg]
    intro hmeq
    exact flipBit_ne _ i hi (hmacinj _ _ _ hmeq)

/-- Toy KDF for the C7 witness. -/
def toyKdf : Unit → Unit → Unit := fun _ _ => ()

/-- Toy keystream (identity: a length-preserving involution). -/
def toyStream : Unit → Unit → List Nat → List Nat := fun _ _ buffer => buffer

/-- Toy MAC (the ciphertext itself: injective). -/
def toyMac : Unit → Unit → List Nat → List Nat → List Nat := fun _ _ _ ciphertext => ciphertext

/-- Witness for C7 at value 100 and mask 5 under the toy AEAD. -/
theorem encrypt_then_decrypt_roundtrip_and_tamper_witness :
    ((100 < 2 ^ 64) ∧
      (∀ (k n : Unit) (pt : List Nat), toyStream k n (toyStream k n pt) = pt) ∧
      (∀ (k n : Unit) (aad : List Nat), Function.Injective (toyMac k n aad))) ∧
    (decrypt_data_and_mask toyKdf toyStream toyMac () ()
        (encrypt_data toyKdf toyStream toyMac () () 100 5 ()) = DecryptResult.ok 100 5 ∧
      (∀ i, i < 8 * (encrypt_data toyKdf toyStream toyMac () () 100 5 ()).payload.length →
        decrypt_data_and_mask toyKdf toyStream toyMac () ()
            (tamper (encrypt_data toyKdf toyStream toyMac () () 100 5 ()) i) =
          DecryptResult.aeadError)) :=
  ⟨⟨by norm_num, fun _ _ _ => rfl, fun _ _ _ _ _ hab => hab⟩,
    encrypt_then_decrypt_roundtrip_and_tamper toyKdf toyStream toyMac () () 100 5 ()
      (by norm_num) (fun _ _ _ => rfl) (fun _ _ _ _ _ hab => hab)⟩

/-- `ConfidentialProofError` (wallet crypto `error.rs`); only the variants
reachable from `create_confidential_output_statement` are modelled. -/
inductive ConfidentialProofError where
  | NegativeAmount : ConfidentialProofError
  | RangeProofError : ConfidentialProofError
deriving DecidableEq

/-- The result of a Rust function that may also abort the process: `ok`,
`err`, or a panic (`unwrap`/`expect` on user input). -/
inductive Outcome (α : Type) where
  | ok (value : α) : Outcome α
  | err (e : ConfidentialProofError) : Outcome α
  | panicked : Outcome α
deriving DecidableEq

def Outcome.isOk {α : Type} : Outcome α → Bool
  | Outcome.ok _ => true
  | _ => false

/-- `Amount::as_u64_checked` (tari_template_lib): an `Amount` is an `i64`;
the conversion fails exactly on negative values. -/
def as_u64_checked (a : Int) : Option Nat :=
  if a < 0 then none else some a.toNat

/-- The wrapping `as u64` cast applied to an `i64` amount
(`stmt.amount.value() as u64`, proof.rs lines 285 and 295). -/
def as_u64_wrapping (a : Int) : Nat := (a % ((2 : Int) ^ 64)).toNat

/-- Modelled from the spec: `ConfidentialProofStatement` (wallet crypto crate,
not under src/), fields per spec §4.7: amount, minimum value promise, mask,
sender public nonce, encrypted data, optional resource view key. -/
structure ConfidentialProofStatement (PK ED : Type) where
  amount : Int
  minimum_value_promise : Nat
  mask : Scalar
  sender_public_nonce : PK
  encrypted_data : ED
  resource_view_key : Option PK
deriving DecidableEq

/-- `ConfidentialStatement` (tari_template_lib): the commitment is held as a
value of the abstract commitment type rather than 32 bytes. -/
structure ConfidentialStatement (PK ED VBP Com : Type) where
  commitment : Com
  sender_public_nonce : PK
  encrypted_data : ED
  minimum_value_promise : Nat
  viewable_balance_proof : Option VBP
deriving DecidableEq

/-- `ConfidentialOutputStatement` (tari_template_lib). -/
structure ConfidentialOutputStatement (PK ED VBP Com : Type) where
  output_statement : Option (ConfidentialStatement PK ED VBP Com)
  change_statement : Option (ConfidentialStatement PK ED VBP Com)
  range_proof : List Nat
  output_revealed_amount : Int
  change_revealed_amount : Int
deriving DecidableEq

/-- `RistrettoExtendedWitness` with the default-Pedersen extended mask of one
scalar (proof.rs lines 281-298). -/
structure RistrettoExtendedWitness where
  mask : Scalar
  value : Nat
  minimum_value_promise : Nat
deriving DecidableEq

/-- The extended witness built from a present statement. -/
def witness_of {PK ED : Type} (stmt : ConfidentialProofStatement PK ED) :
    RistrettoExtendedWitness :=
  { mask := stmt.mask
    value := as_u64_wrapping stmt.amount
    minimum_value_promise := stmt.minimum_value_promise }

/-- `generate_extended_bullet_proof` (proof.rs lines 268-303): empty proof
when both statements are absent, otherwise the range-proof service
(`get_range_proof_service(agg_factor).construct_extended_proof`) applied to
the witnesses of the present statements, output first, with the aggregation
factor counting the present statements. -/
def generate_extended_bullet_proof {PK ED : Type}
    (range_proof_service : Nat → List RistrettoExtendedWitness → Except Unit (List Nat))
    (output_statement change_statement : Option (ConfidentialProofStatement PK ED)) :
    Except Unit (List Nat) :=
  if output_statement.isNone && change_statement.isNone then Except.ok []
  else
    let out_witnesses := match output_statement with
      | some stmt => [witness_of stmt]
      | none => []
    let change_witnesses := match change_statement with
      | some stmt => [witness_of stmt]
      | none => []
    let extended_witnesses := out_witnesses ++ change_witnesses
    let agg_factor := (if output_statement.isSome then 1 else 0) +
      (if change_statement.isSome then 1 else 0)
    range_proof_service agg_factor extended_witnesses

/-- The `proof_change_statement` computation (proof.rs lines 61-81): build
the change `ConfidentialStatement`, with a viewable-balance proof when a view
key is set; the `.unwrap()` on `stmt.amount.as_u64_checked()` at line 74 is
modelled as `Outcome.panicked`. -/
def change_statement_step {PK ED VBP Com : Type}
    (to_commitment : ConfidentialProofStatement PK ED → Com)
    (cvbp : Scalar → Nat → Com → PK → VBP)
    (change_statement : Option (ConfidentialProofStatement PK ED)) :
    Outcome (Option (ConfidentialStatement PK ED VBP Com)) :=
  match change_statement with
  | none => Outcome.ok none
  | some stmt =>
    let change_commitment := to_commitment stmt
    match stmt.resource_view_key with
    | none =>
      Outcome.ok (some
        { commitment := change_commitment
          sender_public_nonce := stmt.sender_public_nonce
          encrypted_data := stmt.encrypted_data
          minimum_value_promise := stmt.minimum_value_promise
          viewable_balance_proof := none })
    | some view_key =>
      match as_u64_checked stmt.amount with
      | none => Outcome.panicked
      | some amount =>
        Outcome.ok (some
          { commitment := change_commitment
            sender_public_nonce := stmt.sender_public_nonce
            encrypted_data := stmt.encrypted_data
            minimum_value_promise := stmt.minimum_value_promise
            viewable_balance_proof :=
              some (cvbp stmt.mask amount change_commitment view_key) })

/-- The `proof_output_statement` computation (proof.rs lines 89-100). -/
def output_statement_step {PK ED VBP Com : Type}
    (to_commitment : ConfidentialProofStatement PK ED → Com)
    (cvbp : Scalar → Nat → Com → PK → VBP)
    (output_statement : Option (ConfidentialProofStatement PK ED))
    (confidential_output_value : Nat) :
    Option (ConfidentialStatement PK ED VBP Com) :=
  output_statement.map fun stmt =>
    let commitment := to_commitment stmt
    { commitment := commitment
      sender_public_nonce := stmt.sender_public_nonce
      encrypted_data := stmt.encrypted_data
      minimum_value_promise := stmt.minimum_value_promise
      viewable_balance_proof := stmt.resource_view_key.map fun view_key =>
        cvbp stmt.mask confidential_output_value commitment view_key }

/-- `create_confidential_output_statement` (proof.rs lines 55-111).  The
injected collaborators: `to_commitment` (`ConfidentialProofStatement::to_commitment`
via the commitment factory), `cvbp` (`create_viewable_balance_proof`, whose
internal randomness is irrelevant here), and the range-proof service.  The
change statement is processed first (a negative change amount with a view key
panics inside `change_statement_step`), then the output amount is checked,
then the range proof is generated. -/
def create_confidential_output_statement {PK ED VBP Com : Type}
    (to_commitment : ConfidentialProofStatement PK ED → Com)
    (cvbp : Scalar → Nat → Com → PK → VBP)
    (range_proof_service : Nat → List RistrettoExtendedWitness → Except Unit (List Nat))
    (output_statement : Option (ConfidentialProofStatement PK ED))
    (output_revealed_amount : Int)
    (change_statement : Option (ConfidentialProofStatement PK ED))
    (change_revealed_amount : Int) :
    Outcome (ConfidentialOutputStatement PK ED VBP Com) :=
  match change_statement_step to_commitment cvbp change_statement with
  | Outcome.panicked => Outcome.panicked
  | Outcome.err e => Outcome.err e
  | Outcome.ok proof_change_statement =>
    match as_u64_checked ((output_statement.map (fun o => o.amount)).getD 0) with
    | none => Outcome.err ConfidentialProofError.NegativeAmount
    | some confidential_output_value =>
      match generate_extended_bullet_proof range_proof_service output_statement
          change_statement with
      | Except.error _ => Outcome.err ConfidentialProofError.RangeProofError
      | Except.ok output_range_proof =>
        Outcome.ok
          { output_statement :=
              output_statement_step to_commitment cvbp output_statement
                confidential_output_value
            change_statement := proof_change_statement
            range_proof := output_range_proof
            output_revealed_amount := output_revealed_amount
            change_revealed_amount := change_revealed_amount }

section RangeProofClaims

variable {PK ED VBP Com : Type}

/-- A successful `create_confidential_output_statement` call carries exactly
the range proof produced by `generate_extended_bullet_proof`. -/
theorem create_ok_range_proof
    (to_commitment : ConfidentialProofStatement PK ED → Com)
    (cvbp : Scalar → Nat → Com → PK → VBP)
    (range_proof_service : Nat → List RistrettoExtendedWitness → Except Unit (List Nat))
    (output_statement : Option (ConfidentialProofStatement PK ED))
    (output_revealed_amount : Int)
    (change_statement : Option (ConfidentialProofStatement PK ED))
    (change_revealed_amount : Int)
    (result : ConfidentialOutputStatement PK ED VBP Com)
    (hok : create_confidential_output_statement to_commitment cvbp range_proof_service
        output_statement output_revealed_amount change_statement change_revealed_amount =
      Outcome.ok result) :
    generate_extended_bullet_proof range_proof_service output_statement change_statement =
      Except.ok result.range_proof := by
  unfold create_confidential_output_statement at hok
  cases hcs : @change_statement_step PK ED VBP Com to_commitment cvbp change_statement with
  | panicked => rw [hcs] at hok; exact absurd hok (by simp)
  | err e => rw [hcs] at hok; exact absurd hok (by simp)
  | ok pcs =>
    rw [hcs] at hok
    cases hamt : as_u64_checked ((output_statement.map (fun o => o.amount)).getD 0) with
    | none => rw [hamt] at hok; exact absurd hok (by simp)
    | some v =>
      rw [hamt] at hok
      cases hgen : generate_extended_bullet_proof range_proof_service output_statement
          change_statement with
      | error e => rw [hgen] at hok; exact absurd hok (by simp)
      | ok rp =>
        rw [hgen] at hok
        injection hok with h
        subst h
        rfl

/-- The property claimed of the range proof of a successful call: empty iff
both statements are absent; when at least one is present, it is the output of
the range-proof service aggregated over exactly the present statements (in
output-then-change order, with the aggregation factor their count). -/
def RangeProofAggregationSpec
    (range_proof_service : Nat → List RistrettoExtendedWitness → Except Unit (List Nat))
    (output_statement change_statement : Option (ConfidentialProofStatement PK ED))
    (result : ConfidentialOutputStatement PK ED VBP Com) : Prop :=
  (result.range_proof = [] ↔ (output_statement = none ∧ change_statement = none)) ∧
  ((output_statement.isSome ∨ change_statement.isSome) →
    range_proof_service (output_statement.toList ++ change_statement.toList).length
        ((output_statement.toList ++ change_statement.toList).map witness_of) =
      Except.ok result.range_proof)

/-- C8: for every successful `create_confidential_output_statement` call, the
returned `range_proof` is empty iff both the output and the change statement
are absent, and when at least one is present the proof is aggregated over
exactly the present statements.  The range-proof library is idealized by the
hypothesis that a successful proof over a positive aggregation factor is
non-empty. -/
theorem create_range_proof_empty_iff_no_statements
    (to_commitment : ConfidentialProofStatement PK ED → Com)
    (cvbp : Scalar → Nat → Com → PK → VBP)
    (range_proof_service : Nat → List RistrettoExtendedWitness → Except Unit (List Nat))
    (output_statement : Option (ConfidentialProofStatement PK ED))
    (output_revealed_amount : Int)
    (change_statement : Option (ConfidentialProofStatement PK ED))
    (change_revealed_amount : Int)
    (result : ConfidentialOutputStatement PK ED VBP Com)
    (hne : ∀ n ws r, 1 ≤ n → range_proof_service n ws = Except.ok r → r ≠ [])
    (hok : create_confidential_output_statement to_commitment cvbp range_proof_service
        output_statement output_revealed_amount change_statement change_revealed_amount =
      Outcome.ok result) :
    RangeProofAggregationSpec range_proof_service output_statement change_statement result := by
  have hgen := create_ok_range_proof to_commitment cvbp range_proof_service output_statement
    output_revealed_amount change_statement change_revealed_amount result hok
  cases output_statement with
  | none =>
    cases change_statement with
    | none =>
      simp only [generate_extended_bullet_proof, Option.isNone_none, Bool.and_self,
        if_true] at hgen
      injection hgen with h
      exact ⟨by simp [← h], by simp⟩
    | some cstmt =>
      simp only [generate_extended_bullet_proof, Option.isNone_none, Option.isNone_some,
        Bool.and_false, Bool.false_eq_true, if_false] at hgen
      refine ⟨⟨fun hrp => absurd hrp (hne 1 _ _ (by norm_num) hgen), fun h => absurd h.2 (by simp)⟩, ?_⟩
      intro _
      exact hgen
  | some ostmt =>
    cases change_statement with
    | none =>
      simp only [generate_extended_bullet_proof, Option.isNone_none, Option.isNone_some,
        Bool.false_and, Bool.false_eq_true, if_false] at hgen
      refine ⟨⟨fun hrp => absurd hrp (hne 1 _ _ (by norm_num) hgen), fun h => absurd h.1 (by simp)⟩, ?_⟩
      intro _
      exact hgen
    | some cstmt =>
      simp only [generate_extended_bullet_proof, Option.isNone_some, Bool.false_and,
        Bool.false_eq_true, if_false] at hgen
      refine ⟨⟨fun hrp => absurd hrp (hne 2 _ _ (by norm_num) hgen), fun h => absurd h.1 (by simp)⟩, ?_⟩
      intro _
      exact hgen

end RangeProofClaims

/-- Toy range-proof service for the witnesses: a proof of `agg_factor` bytes,
so positive aggregation factors yield non-empty proofs. -/
def toyRangeProofService : Nat → List RistrettoExtendedWitness → Except Unit (List Nat) :=
  fun agg_factor _ => Except.ok (List.replicate agg_factor 1)

theorem toyRangeProofService_nonempty :
    ∀ n ws r, 1 ≤ n → toyRangeProofService n ws = Except.ok r → r ≠ [] := by
  intro n ws r hn hr
  injection hr with h
  subst h
  cases n with
  | zero => omega
  | succ n => simp [List.replicate]

/-- Toy commitment factory for the witnesses. -/
def toyToCommitment : ConfidentialProofStatement Nat Unit → Unit := fun _ => ()

/-- Toy viewable-balance-proof builder for the witnesses. -/
def toyCvbp : Scalar → Nat → Unit → Nat → Unit := fun _ _ _ _ => ()

/-- A valid output statement (amount 100, no view key). -/
def exampleOutputStatement : ConfidentialProofStatement Nat Unit :=
  { amount := 100, minimum_value_promise := 0, mask := 3, sender_public_nonce := 0
    encrypted_data := (), resource_view_key := none }

/-- The successful result of `create_confidential_output_statement` on
`exampleOutputStatement` alone under the toy collaborators. -/
def exampleOutputResult : ConfidentialOutputStatement Nat Unit Unit Unit :=
  { output_statement := some
      { commitment := (), sender_public_nonce := 0, encrypted_data := ()
        minimum_value_promise := 0, viewable_balance_proof := none }
    change_statement := none
    range_proof := [1]
    output_revealed_amount := 0
    change_revealed_amount := 0 }

/-- Witness for C8: one present output statement under the toy service. -/
theorem create_range_proof_empty_iff_no_statements_witness :
    ((∀ n ws r, 1 ≤ n → toyRangeProofService n ws = Except.ok r → r ≠ []) ∧
      create_confidential_output_statement toyToCommitment toyCvbp toyRangeProofService
        (some exampleOutputStatement) 0 none 0 = Outcome.ok exampleOutputResult) ∧
    RangeProofAggregationSpec toyRangeProofService (some exampleOutputStatement) none
      exampleOutputResult :=
  ⟨⟨toyRangeProofService_nonempty, by decide⟩,
    create_range_proof_empty_iff_no_statements toyToCommitment toyCvbp toyRangeProofService
      (some exampleOutputStatement) 0 none 0 exampleOutputResult
      toyRangeProofService_nonempty (by decide)⟩

/-- A change statement with a negative amount and a resource view key: the
input on which proof.rs line 74 panics. -/
def negativeChangeWithViewKey : ConfidentialProofStatement Nat Unit :=
  { amount := -1, minimum_value_promise := 0, mask := 3, sender_public_nonce := 0
    encrypted_data := (), resource_view_key := some 9 }

/-- A change statement with a negative amount and no view key. -/
def negativeChangeNoViewKey : ConfidentialProofStatement Nat Unit :=
  { amount := -1, minimum_value_promise := 0, mask := 3, sender_public_nonce := 0
    encrypted_data := (), resource_view_key := none }

/-- An output statement with a negative amount. -/
def negativeOutputStatement : ConfidentialProofStatement Nat Unit :=
  { amount := -1, minimum_value_promise := 0, mask := 3, sender_public_nonce := 0
    encrypted_data := (), resource_view_key := none }

/-- C1 (evaluation at the failing inputs): a negative change amount with a
view key makes `create_confidential_output_statement` panic via the
`as_u64_checked().unwrap()` at proof.rs line 74 instead of returning
`Err(NegativeAmount)`; a negative change amount without a view key is
silently wrapped by `as u64` and the call succeeds; only a negative output
amount produces the typed `NegativeAmount` error. -/
theorem negative_change_amount_panics :
    create_confidential_output_statement toyToCommitment toyCvbp toyRangeProofService
        none 0 (some negativeChangeWithViewKey) 0 = Outcome.panicked ∧
    (create_confidential_output_statement toyToCommitment toyCvbp toyRangeProofService
        none 0 (some negativeChangeNoViewKey) 0).isOk = true ∧
    create_confidential_output_statement toyToCommitment toyCvbp toyRangeProofService
        (some negativeOutputStatement) 0 none 0 =
      Outcome.err ConfidentialProofError.NegativeAmount :=
  ⟨by decide, by decide, by decide⟩

end Confidential
